import Mathlib

/-
Verification of the session/state synchronization logic of the
simple-multi-chat-ui application (source: src/app.py).

The embedding is shallow: every handler of app.py becomes a Lean function.
JSON values are modelled by an inductive type, Python exceptions by an
Except monad, and the side effects of a call (HTTP requests, log lines,
UI warnings, the post-send sleep) by an explicit trace of effects, so a
result of an operation is a pair of the effect trace and either a value
or an escaped Python exception.  The network is modelled by an
environment that fixes, per endpoint, the response the server would give.
-/

set_option autoImplicit false

namespace App

/-- A JSON value, as produced by response.json() in app.py. -/
inductive Json where
  | null
  | bool (b : Bool)
  | num (n : Int)
  | str (s : String)
  | arr (elems : List Json)
  | obj (fields : List (String × Json))

/-- Python exceptions that the code of app.py can raise or catch.
jsonDecodeError models requests.exceptions.JSONDecodeError, which is a
subclass of both ValueError and RequestException; httpError carries the
HTTP status code, as e.response.status_code does. -/
inductive PyExc where
  | valueError
  | typeError
  | keyError
  | attributeError
  | connectionError
  | httpError (status : Nat)
  | jsonDecodeError
  deriving DecidableEq, Repr

/-- True for the exception classes matched by except requests.exceptions.RequestException. -/
def isRequestException : PyExc → Bool
  | .connectionError => true
  | .httpError _ => true
  | .jsonDecodeError => true
  | _ => false

/-- True for the exception classes matched by except ValueError. -/
def isValueError : PyExc → Bool
  | .valueError => true
  | .jsonDecodeError => true
  | _ => false

/-- True for the exception classes matched by except (KeyError, TypeError). -/
def isParseError : PyExc → Bool
  | .keyError => true
  | .typeError => true
  | _ => false

/-- An observable side effect of one handler call: an HTTP request that was
put on the wire, a log line, a Gradio toast (warning, info, success), or
the fixed time.sleep delay. -/
inductive Effect where
  | httpCall (method : String) (endpoint : String)
  | logMsg (level : String) (msg : String)
  | warn (msg : String)
  | info (msg : String)
  | successMsg (msg : String)
  | sleep (seconds : Nat)
  deriving DecidableEq, Repr

/-- What the server answers to one request: a 2xx response whose body
parses as JSON, a 2xx response whose body is not JSON (response.json()
raises), a non-2xx status (raise_for_status raises HTTPError), or a
transport failure (requests.post itself raises). -/
inductive Resp where
  | ok (body : Json)
  | okBad
  | errStatus (status : Nat)
  | errTransport

/-- The network environment: the response each endpoint of app.py would
give if called. -/
structure Env where
  tokenResp : Resp
  chatsResp : Resp
  deleteResp : Resp
  renameResp : Resp
  messagesResp : Resp
  sendResp : Resp

/-- Python truthiness (bool(x)) for JSON values, as used by the bare
if-tests of app.py. -/
def pyTruthy : Json → Bool
  | .null => false
  | .bool b => b
  | .num n => n != 0
  | .str s => s != ""
  | .arr xs => !xs.isEmpty
  | .obj kvs => !kvs.isEmpty

/-- First binding of a key in a JSON object, in field order. -/
def jsonLookup : List (String × Json) → String → Option Json
  | [], _ => none
  | kv :: rest, key => if kv.1 = key then some kv.2 else jsonLookup rest key

/-- Python d[k]: KeyError when the key is absent from a dict, TypeError
when indexing a non-dict with a string. -/
def pyGetItem : Json → String → Except PyExc Json
  | .obj kvs, k =>
    match jsonLookup kvs k with
    | some v => .ok v
    | none => .error .keyError
  | _, _ => .error .typeError

/-- Python d.get(k, default): AttributeError when the receiver is not a
dict (no .get method on lists, strings, numbers, None). -/
def pyGetD : Json → String → Json → Except PyExc Json
  | .obj kvs, k, d => .ok ((jsonLookup kvs k).getD d)
  | _, _, _ => .error .attributeError

mutual

/-- Structural equality of JSON values, modelling Python == on the values
app.py compares (chat ids, which are scalars; dict comparison is modelled
field-order sensitively, which is adequate here). -/
def jsonEq : Json → Json → Bool
  | .null, .null => true
  | .bool a, .bool b => a == b
  | .num a, .num b => a == b
  | .str a, .str b => a == b
  | .arr a, .arr b => jsonEqList a b
  | .obj a, .obj b => jsonEqFields a b
  | _, _ => false

/-- Elementwise equality of JSON arrays. -/
def jsonEqList : List Json → List Json → Bool
  | [], [] => true
  | x :: xs, y :: ys => jsonEq x y && jsonEqList xs ys
  | _, _ => false

/-- Fieldwise equality of JSON objects. -/
def jsonEqFields : List (String × Json) → List (String × Json) → Bool
  | [], [] => true
  | (k1, v1) :: r1, (k2, v2) :: r2 => k1 == k2 && jsonEq v1 v2 && jsonEqFields r1 r2
  | _, _ => false

end

/-- Substring test on character lists, for Python (needle in haystack)
on strings. -/
def charSub (needle : List Char) : List Char → Bool
  | [] => needle.isEmpty
  | c :: t => needle.isPrefixOf (c :: t) || charSub needle t

/-- Python (k in d): key membership for dicts, element membership for
lists, substring test for strings, TypeError otherwise. -/
def pyContains : Json → String → Except PyExc Bool
  | .obj kvs, k => .ok (kvs.any (fun kv => kv.1 == k))
  | .arr xs, k => .ok (xs.any (fun x => jsonEq (.str k) x))
  | .str s, k => .ok (charSub k.toList s.toList)
  | _, _ => .error .typeError

/-- Python iteration (for x in j): lists yield elements, dicts yield
keys, strings yield one-character strings, everything else raises
TypeError. -/
def pyIter : Json → Except PyExc (List Json)
  | .arr xs => .ok xs
  | .obj kvs => .ok (kvs.map (fun kv => Json.str kv.1))
  | .str s => .ok (s.toList.map (fun c => Json.str (String.mk [c])))
  | _ => .error .typeError

/-- Python str() of a JSON value, used only inside human-readable display
and log strings.  Scalars are rendered faithfully; the rendering of
composite values (never display-relevant in app.py) is abstracted to a
fixed token. -/
def pyStr : Json → String
  | .null => "None"
  | .bool true => "True"
  | .bool false => "False"
  | .num n => toString n
  | .str s => s
  | .arr _ => "[...]"
  | .obj _ => "\x7b...\x7d"

/-- Whitespace in the sense of Python str.strip (ASCII core set). -/
def pyIsSpace (c : Char) : Bool :=
  c == ' ' || c == '\t' || c == '\n' || c == '\r' || c == '\x0b' || c == '\x0c'

/-- Python (not s.strip()): true when the string is empty or all
whitespace.  This is the emptiness test app.py applies to the send text
and the rename name. -/
def pyStripEmpty (s : String) : Bool := s.data.all pyIsSpace

/-- A (display name, chat id) pair as built by get_chats. -/
abbrev Chat := Json × Json

/-- One entry of the displayed message history:
a dict with role and content, as appended by get_chat_messages. -/
structure Msg where
  role : String
  content : Json

/-- Result of running a piece of app.py code: the effects it performed,
and either its return value or the Python exception that escaped it. -/
abbrev PyResult (α : Type) : Type := List Effect × Except PyExc α

/-- Sequencing of two pieces of code: if the first raises, the second
does not run; effect traces concatenate. -/
def pyBind {α β : Type} (x : PyResult α) (f : α → PyResult β) : PyResult β :=
  match x with
  | (es, .error e) => (es, .error e)
  | (es, .ok a) =>
    let r := f a
    (es ++ r.1, r.2)

/-- A pure computation (no effects) lifted into PyResult. -/
def ofExcept {α : Type} (x : Except PyExc α) : PyResult α := ([], x)

/-- Python try/except: exceptions selected by the catches predicate are
routed to the handler (which sees the exception, as the except clauses of
app.py do); other exceptions keep propagating. -/
def pyTry {α : Type} (attempt : PyResult α) (catches : PyExc → Bool)
    (handler : PyExc → PyResult α) : PyResult α :=
  match attempt with
  | (es, .error e) =>
    if catches e then
      let r := handler e
      (es ++ r.1, r.2)
    else (es, .error e)
  | (es, .ok a) => (es, .ok a)

/-- API_ENDPOINTS["token"]. -/
def epToken : String := "/auth/token"

/-- API_ENDPOINTS["get_chats"]. -/
def epGetChats : String := "/memory/collections/chat/points/by_metadata_chat"

/-- API_ENDPOINTS["create_chat"]. -/
def epCreateChat : String := "/createChat"

/-- API_ENDPOINTS["delete_chat"]. -/
def epDeleteChat : String := "/delete_chat"

/-- API_ENDPOINTS["rename_chat"]. -/
def epRenameChat : String := "/memory/collections/points/changeNameChat"

/-- API_ENDPOINTS["get_messages"]. -/
def epGetMessages : String := "/giveAll"

/-- API_ENDPOINTS["send_message"]. -/
def epSendMessage : String := "/message"

/-- log_and_warn: logging.warning plus gr.Warning, as an effect script. -/
def log_and_warn (m : String) : List Effect := [.logMsg "warning" m, .warn m]

/-- log_and_info: logging.info plus gr.Info. -/
def log_and_info (m : String) : List Effect := [.logMsg "info" m, .info m]

/-- log_and_success: logging.info plus gr.Success. -/
def log_and_success (m : String) : List Effect := [.logMsg "info" m, .successMsg m]

/-- handle_api_error: builds a warning from the exception and the context
and reports it via log_and_warn.  The best-effort detail extracted from
the response body is abstracted away; only the context reaches the trace,
which is all the verified claims inspect. -/
def handle_api_error (context : String) : List Effect :=
  log_and_warn ("Error in " ++ context)

/-- get_headers: raises ValueError when the token is falsy (None or the
empty string), else returns the two headers. -/
def get_headers (auth_token : Json) : Except PyExc (String × String) :=
  if !pyTruthy auth_token then .error .valueError
  else .ok ("application/json", "Bearer " ++ pyStr auth_token)

/-- One requests call followed by raise_for_status and response.json(),
fused over the Resp the environment assigns to the endpoint: a transport
failure raises at the call, a non-2xx status raises HTTPError, a non-JSON
body raises JSONDecodeError, and otherwise the parsed body is returned.
The request attempt itself is always recorded in the trace. -/
def apiCall (method endpoint : String) (resp : Resp) : PyResult Json :=
  match resp with
  | .errTransport => ([.httpCall method endpoint], .error .connectionError)
  | .errStatus c => ([.httpCall method endpoint], .error (.httpError c))
  | .okBad => ([.httpCall method endpoint], .error .jsonDecodeError)
  | .ok body => ([.httpCall method endpoint], .ok body)

/-- One requests call followed by raise_for_status, for the endpoints
whose body app.py never parses (delete, rename, send): a 2xx response
succeeds whether or not its body is JSON. -/
def apiCallNoBody (method endpoint : String) (resp : Resp) : PyResult Unit :=
  match resp with
  | .errTransport => ([.httpCall method endpoint], .error .connectionError)
  | .errStatus c => ([.httpCall method endpoint], .error (.httpError c))
  | _ => ([.httpCall method endpoint], .ok ())

/-- The body of the list comprehension in get_chats, for one element p of
data["points"]: [p["metadata"].get("name", "Unnamed Chat"), p["id"]]. -/
def parseChatPoint (p : Json) : Except PyExc Chat :=
  match pyGetItem p "metadata" with
  | .error e => .error e
  | .ok meta =>
    match pyGetD meta "name" (.str "Unnamed Chat") with
    | .error e => .error e
    | .ok name =>
      match pyGetItem p "id" with
      | .error e => .error e
      | .ok id => .ok (name, id)

/-- A Python loop or comprehension over a list, stopping at the first
exception. -/
def exceptMapList {α β : Type} (f : α → Except PyExc β) : List α → Except PyExc (List β)
  | [] => .ok []
  | x :: xs =>
    match f x with
    | .error e => .error e
    | .ok y =>
      match exceptMapList f xs with
      | .error e => .error e
      | .ok ys => .ok (y :: ys)

/-- The body-parsing part of get_chats:
if "points" in data and data["points"]: return the comprehension, else []. -/
def parseChatsBody (data : Json) : Except PyExc (List Chat) :=
  match pyContains data "points" with
  | .error e => .error e
  | .ok mem =>
    if mem then
      match pyGetItem data "points" with
      | .error e => .error e
      | .ok pts =>
        if pyTruthy pts then
          match pyIter pts with
          | .error e => .error e
          | .ok elems => exceptMapList parseChatPoint elems
        else .ok []
    else .ok []

/-- get_chats: fetch all chats; on RequestException or ValueError the
error is reported and [] is returned.  Exceptions outside those classes
(KeyError, TypeError from an unexpected body shape) escape. -/
def get_chats (env : Env) (auth_token : Json) : PyResult (List Chat) :=
  pyTry
    (pyBind (ofExcept (get_headers auth_token)) (fun _ =>
      pyBind (apiCall "POST" epGetChats env.chatsResp) (fun data =>
        ofExcept (parseChatsBody data))))
    (fun e => isRequestException e || isValueError e)
    (fun _ => (handle_api_error "fetching chats", .ok []))

/-- The per-message body of the loop in get_chat_messages: read the
metadata dict, append a user turn when meta.get("text") is truthy and an
assistant turn when meta.get("bot") is truthy, in that order. -/
def parseTurns (msg : Json) : Except PyExc (List Msg) :=
  match pyGetD msg "metadata" (.obj []) with
  | .error e => .error e
  | .ok meta =>
    match pyGetD meta "text" .null with
    | .error e => .error e
    | .ok t =>
      match (if pyTruthy t then
               match pyGetItem meta "text" with
               | .error e => Except.error e
               | .ok tv => Except.ok [Msg.mk "user" tv]
             else .ok []) with
      | .error e => .error e
      | .ok userPart =>
        match pyGetD meta "bot" .null with
        | .error e => .error e
        | .ok b =>
          match (if pyTruthy b then
                   match pyGetItem meta "bot" with
                   | .error e => Except.error e
                   | .ok bv => Except.ok [Msg.mk "assistant" bv]
                 else .ok []) with
          | .error e => .error e
          | .ok botPart => .ok (userPart ++ botPart)

/-- The body-parsing part of get_chat_messages: chat_name defaults to
"Current Chat", messages to data.get("Messages", {}).get("points", []),
then the per-message loop, then the label string. -/
def parseMessagesBody (data : Json) : Except PyExc (List Msg × String) :=
  match pyGetD data "Name" (.str "Current Chat") with
  | .error e => .error e
  | .ok chat_name =>
    match pyGetD data "Messages" (.obj []) with
    | .error e => .error e
    | .ok msgsOuter =>
      match pyGetD msgsOuter "points" (.arr []) with
      | .error e => .error e
      | .ok messages =>
        match pyIter messages with
        | .error e => .error e
        | .ok elems =>
          match exceptMapList parseTurns elems with
          | .error e => .error e
          | .ok parts => .ok (parts.flatten, "History for: " ++ pyStr chat_name)

/-- get_chat_messages: with a falsy chat id, returns immediately with the
selection sentinel and no network call.  Otherwise fetches and parses;
RequestException and ValueError give ([], "Error loading messages"),
KeyError and TypeError give ([], "Could not parse message response"), and
any other exception (AttributeError) escapes. -/
def get_chat_messages (env : Env) (auth_token : Json) (chat_id : Json) :
    PyResult (List Msg × String) :=
  if !pyTruthy chat_id then ([], .ok ([], "Select a chat to see messages"))
  else
    pyTry
      (pyBind (ofExcept (get_headers auth_token)) (fun _ =>
        pyBind (apiCall "POST" epGetMessages env.messagesResp) (fun data =>
          ofExcept (parseMessagesBody data))))
      (fun e => isRequestException e || isValueError e || isParseError e)
      (fun e =>
        if isRequestException e || isValueError e then
          (handle_api_error "fetching messages", .ok ([], "Error loading messages"))
        else
          (log_and_warn "Error parsing response", .ok ([], "Could not parse message response")))

/-- delete_chat: warns and returns with a falsy chat id; otherwise makes
the DELETE request, reporting RequestException and ValueError. -/
def delete_chat (env : Env) (auth_token : Json) (chat_id : Json) : PyResult Unit :=
  if !pyTruthy chat_id then (log_and_warn "Please select a chat to delete.", .ok ())
  else
    pyTry
      (pyBind (ofExcept (get_headers auth_token)) (fun _ =>
        apiCallNoBody "DELETE" epDeleteChat env.deleteResp))
      (fun e => isRequestException e || isValueError e)
      (fun _ => (handle_api_error "deleting chat", .ok ()))

/-- rename_chat: warns and returns with a falsy chat id or a
whitespace-only new name; otherwise makes the POST request, logging
success, reporting RequestException and ValueError. -/
def rename_chat (env : Env) (auth_token : Json) (chat_id : Json) (new_name : String) :
    PyResult Unit :=
  if !pyTruthy chat_id then (log_and_warn "Please select a chat to rename.", .ok ())
  else if pyStripEmpty new_name then (log_and_warn "New name cannot be empty.", .ok ())
  else
    pyTry
      (pyBind (ofExcept (get_headers auth_token)) (fun _ =>
        pyBind (apiCallNoBody "POST" epRenameChat env.renameResp) (fun _ =>
          (log_and_success ("Chat " ++ pyStr chat_id ++ " renamed to \x27" ++ new_name ++ "\x27."),
           .ok ()))))
      (fun e => isRequestException e || isValueError e)
      (fun _ => (handle_api_error "renaming chat", .ok ()))

/-- send_message_and_get_reply: warns and returns None with a falsy chat
id or a whitespace-only text; otherwise POSTs the message, sleeps one
second, re-fetches the history and returns it; RequestException and
ValueError give a reported failure and None. -/
def send_message_and_get_reply (env : Env) (auth_token : Json) (chat_id : Json)
    (text : String) : PyResult (Option (List Msg)) :=
  if !pyTruthy chat_id then (log_and_warn "Cannot send message: no chat selected.", .ok none)
  else if pyStripEmpty text then (log_and_warn "Cannot send an empty message.", .ok none)
  else
    pyTry
      (pyBind (ofExcept (get_headers auth_token)) (fun _ =>
        pyBind (apiCallNoBody "POST" epSendMessage env.sendResp) (fun _ =>
          pyBind ([Effect.sleep 1], .ok ()) (fun _ =>
            pyBind (get_chat_messages env auth_token chat_id) (fun hp =>
              ([], .ok (some hp.1)))))))
      (fun e => isRequestException e || isValueError e)
      (fun _ => (handle_api_error "sending message", .ok none))

/-- A gr.update(...) value: each field is some v when the corresponding
keyword was passed to gr.update, none when it was omitted.  A bare
gr.update() is the record with every field omitted. -/
structure GrUpdate where
  choices : Option (List Chat) := none
  value : Option Json := none
  visible : Option Bool := none

/-- One output slot of a handler: either a concrete value written to the
component or state, or a bare gr.update() leaving it unchanged. -/
inductive Out (α : Type) where
  | val (a : α)
  | skip

/-- refresh_and_update_components: with a falsy token, returns empty
choices and an empty list with no request; otherwise fetches the chats
and returns them as both the selector choices (selection reset to None)
and the new chat list state. -/
def refresh_and_update_components (env : Env) (auth_token : Json) :
    PyResult (GrUpdate × List Chat) :=
  if !pyTruthy auth_token then ([], .ok ({ choices := some [] }, []))
  else
    pyBind (get_chats env auth_token) (fun chats =>
      ([], .ok ({ choices := some chats, value := some Json.null }, chats)))

/-- The five outputs of login: login view update, main view update, auth
token state, chat list state, chat selector update. -/
structure LoginResult where
  loginView : GrUpdate
  mainView : GrUpdate
  token : Json
  chatList : List Chat
  selector : GrUpdate

/-- The failure tuple login returns on every unsuccessful path: login
view shown, main view hidden, token None, empty list, empty choices. -/
def loginFailResult : LoginResult :=
  { loginView := { visible := some true }
    mainView := { visible := some false }
    token := Json.null
    chatList := []
    selector := { choices := some [] } }

/-- login: rejects empty username or password with a warning and no
request; otherwise POSTs the credentials, reads access_token from the
body, rejects a falsy token, and on success refreshes the chat list and
switches the views.  HTTPError with status 401 warns about invalid
credentials; any other RequestException is reported via
handle_api_error. -/
def login (env : Env) (username password : String) : PyResult LoginResult :=
  if username == "" || password == "" then
    ([.warn "Username and Password are required."], .ok loginFailResult)
  else
    pyTry
      (pyBind (apiCall "POST" epToken env.tokenResp) (fun token_data =>
        pyBind (ofExcept (pyGetD token_data "access_token" Json.null)) (fun auth_token =>
          if !pyTruthy auth_token then
            ([.warn "Login failed: No token received."], .ok loginFailResult)
          else
            pyBind ((log_and_success "Login successful.", .ok ()) : PyResult Unit) (fun _ =>
              pyBind (refresh_and_update_components env auth_token) (fun rc =>
                ([], .ok { loginView := { visible := some false }
                           mainView := { visible := some true }
                           token := auth_token
                           chatList := rc.2
                           selector := rc.1 }))))))
      isRequestException
      (fun e =>
        match e with
        | .httpError 401 => ([.warn "Invalid username or password."], .ok loginFailResult)
        | _ => (handle_api_error "authentication", .ok loginFailResult))

/-- The nine outputs of logout: login view, main view, token state, chat
list state, selected chat id state, chatbot history, selector update,
username field, password field. -/
structure LogoutResult where
  loginView : GrUpdate
  mainView : GrUpdate
  token : Json
  chatList : List Chat
  selectedChatId : Json
  history : List Msg
  selector : GrUpdate
  usernameField : String
  passwordField : String

/-- logout: takes no inputs, logs, and returns the fixed reset tuple. -/
def logout : PyResult LogoutResult :=
  (log_and_info "User logged out.",
   .ok { loginView := { visible := some true }
         mainView := { visible := some false }
         token := Json.null
         chatList := []
         selectedChatId := Json.null
         history := []
         selector := { choices := some [], value := some Json.null }
         usernameField := ""
         passwordField := "" })

/-- get_name_from_id: first name in the chat list whose id equals the
selected id, else None. -/
def get_name_from_id (selected_id : Json) (chat_list : List Chat) : Option Json :=
  match chat_list.find? (fun c => jsonEq c.2 selected_id) with
  | some c => some c.1
  | none => none

/-- Python (x or y) on an optional JSON value: the value when it is
present and truthy, else the fallback. -/
def pyOr (x : Option Json) (y : Json) : Json :=
  match x with
  | some v => if pyTruthy v then v else y
  | none => y

/-- handle_delete_chat: with a truthy selection, resolves the display
name (get_name_from_id or selected_id), deletes, logs the confirmation,
refreshes the list, and resets the selection state to None and the
history to []; with no selection, warns and leaves all four outputs
unchanged. -/
def handle_delete_chat (env : Env) (selected_id : Json) (chat_list_data : List Chat)
    (auth_token : Json) :
    PyResult (GrUpdate × Out (List Chat) × Out Json × Out (List Msg)) :=
  if pyTruthy selected_id then
    let chat_name := pyOr (get_name_from_id selected_id chat_list_data) selected_id
    pyBind (delete_chat env auth_token selected_id) (fun _ =>
      pyBind ((log_and_success ("Chat \x27" ++ pyStr chat_name ++ "\x27 deleted."), .ok ()) :
          PyResult Unit) (fun _ =>
        pyBind (refresh_and_update_components env auth_token) (fun rc =>
          ([], .ok (rc.1, .val rc.2, .val Json.null, .val [])))))
  else
    (log_and_warn "No chat selected to delete.",
     .ok ({}, .skip, .skip, .skip))

/-- handle_rename_chat: with no selection, warns (gr.Warning only) and
returns the typed name unchanged with both other outputs untouched; with
a selection, calls rename_chat, then unconditionally refreshes the list
and clears the rename input. -/
def handle_rename_chat (env : Env) (selected_id : Json) (new_name : String)
    (auth_token : Json) : PyResult (GrUpdate × Out (List Chat) × String) :=
  if !pyTruthy selected_id then
    ([.warn "Please select a chat to rename."], .ok ({}, .skip, new_name))
  else
    pyBind (rename_chat env auth_token selected_id new_name) (fun _ =>
      pyBind (refresh_and_update_components env auth_token) (fun rc =>
        ([], .ok (rc.1, .val rc.2, ""))))

/-- handle_send_and_refresh: with no selection, warns and returns an
empty history and a cleared input; otherwise calls
send_message_and_get_reply; on None (failure) it re-fetches the current
history and returns it together with the original text, else it returns
the updated history and clears the input. -/
def handle_send_and_refresh (env : Env) (selected_chat_id : Json) (text : String)
    (auth_token : Json) : PyResult (List Msg × String) :=
  if !pyTruthy selected_chat_id then
    (log_and_warn "Please select a chat first.", .ok ([], ""))
  else
    pyBind (send_message_and_get_reply env auth_token selected_chat_id text)
      (fun updated_history =>
        match updated_history with
        | none =>
          pyBind (get_chat_messages env auth_token selected_chat_id) (fun cur =>
            ([], .ok (cur.1, text)))
        | some h => ([], .ok (h, "")))

/-- True when the request reached the server and came back 2xx, so
raise_for_status does not raise (the body may or may not be JSON). -/
def resp2xx : Resp → Bool
  | .errStatus _ => false
  | .errTransport => false
  | _ => true

/-- True when the call fails for an operation that parses the body: a
transport failure, a non-2xx status, or a 2xx body that is not JSON. -/
def respFailure : Resp → Bool
  | .ok _ => false
  | _ => true

/-- True when an effect trace contains at least one HTTP request. -/
def anyHttpCall (es : List Effect) : Bool :=
  es.any fun e =>
    match e with
    | .httpCall _ _ => true
    | _ => false

/-- A sample network environment used to instantiate the universally
quantified theorems at concrete inputs. -/
def sampleEnv : Env :=
  { tokenResp := .ok (.obj [("access_token", .str "tok")])
    chatsResp := .ok (.obj [("points", .arr [
      .obj [("metadata", .obj [("name", .str "A")]), ("id", .str "id1")],
      .obj [("metadata", .obj []), ("id", .str "id2")]])])
    deleteResp := .ok (.obj [])
    renameResp := .ok (.obj [])
    messagesResp := .ok (.obj [("Name", .str "X"),
      ("Messages", .obj [("points", .arr [
        .obj [("metadata", .obj [("text", .str "hi"), ("bot", .str "yo")])]])])])
    sendResp := .ok (.obj []) }

/-- A list-messages point whose metadata carries a text value and a bot
value. -/
def mkMsgPoint (tb : Json × Json) : Json :=
  .obj [("metadata", .obj [("text", tb.1), ("bot", tb.2)])]

/-- The history contribution of one message entry as described by the
specification, amended for truthiness: a user turn when the text value is
truthy, then an assistant turn when the bot value is truthy, each check
independent of the other. -/
def specEntryTurns (tb : Json × Json) : List Msg :=
  (if pyTruthy tb.1 then [Msg.mk "user" tb.1] else []) ++
  (if pyTruthy tb.2 then [Msg.mk "assistant" tb.2] else [])

/-- A list-chats point with the given metadata fields and id. -/
def mkChatPoint (p : List (String × Json) × Json) : Json :=
  .obj [("metadata", .obj p.1), ("id", p.2)]


/-- Exhaustive case analysis of get_chat_messages. -/
theorem gcm_cases (env : Env) (tok cid : Json) :
    get_chat_messages env tok cid = ([], .ok ([], "Select a chat to see messages")) ∨
    get_chat_messages env tok cid =
      (handle_api_error "fetching messages", .ok ([], "Error loading messages")) ∨
    (∃ p, get_chat_messages env tok cid = ([.httpCall "POST" epGetMessages], .ok p)) ∨
    get_chat_messages env tok cid =
      (.httpCall "POST" epGetMessages :: handle_api_error "fetching messages",
       .ok ([], "Error loading messages")) ∨
    get_chat_messages env tok cid =
      (.httpCall "POST" epGetMessages :: log_and_warn "Error parsing response",
       .ok ([], "Could not parse message response")) ∨
    get_chat_messages env tok cid =
      ([.httpCall "POST" epGetMessages], .error .attributeError) := by
  cases hcid : pyTruthy cid with
  | false =>
    left
    simp [get_chat_messages, hcid]
  | true =>
    cases htok : pyTruthy tok with
    | false =>
      right; left
      simp [get_chat_messages, hcid, htok, get_headers, ofExcept, pyBind, pyTry,
            isRequestException, isValueError, isParseError]
    | true =>
      cases hresp : env.messagesResp with
      | errTransport =>
        right; right; right; left
        simp [get_chat_messages, hcid, htok, hresp, get_headers, ofExcept, pyBind, pyTry,
              apiCall, isRequestException, isValueError]
      | errStatus c =>
        right; right; right; left
        simp [get_chat_messages, hcid, htok, hresp, get_headers, ofExcept, pyBind, pyTry,
              apiCall, isRequestException, isValueError]
      | okBad =>
        right; right; right; left
        simp [get_chat_messages, hcid, htok, hresp, get_headers, ofExcept, pyBind, pyTry,
              apiCall, isRequestException, isValueError]
      | ok body =>
        cases hp : parseMessagesBody body with
        | ok p =>
          right; right; left
          refine ⟨p, ?_⟩
          simp [get_chat_messages, hcid, htok, hresp, hp, get_headers, ofExcept, pyBind,
                pyTry, apiCall]
        | error e =>
          cases e with
          | valueError =>
            right; right; right; left
            simp [get_chat_messages, hcid, htok, hresp, hp, get_headers, ofExcept, pyBind,
                  pyTry, apiCall, isRequestException, isValueError]
          | typeError =>
            right; right; right; right; left
            simp [get_chat_messages, hcid, htok, hresp, hp, get_headers, ofExcept, pyBind,
                  pyTry, apiCall, isRequestException, isValueError, isParseError]
          | keyError =>
            right; right; right; right; left
            simp [get_chat_messages, hcid, htok, hresp, hp, get_headers, ofExcept, pyBind,
                  pyTry, apiCall, isRequestException, isValueError, isParseError]
          | attributeError =>
            right; right; right; right; right
            simp [get_chat_messages, hcid, htok, hresp, hp, get_headers, ofExcept, pyBind,
                  pyTry, apiCall, isRequestException, isValueError, isParseError]
          | connectionError =>
            right; right; right; left
            simp [get_chat_messages, hcid, htok, hresp, hp, get_headers, ofExcept, pyBind,
                  pyTry, apiCall, isRequestException, isValueError]
          | httpError s =>
            right; right; right; left
            simp [get_chat_messages, hcid, htok, hresp, hp, get_headers, ofExcept, pyBind,
                  pyTry, apiCall, isRequestException, isValueError]
          | jsonDecodeError =>
            right; right; right; left
            simp [get_chat_messages, hcid, htok, hresp, hp, get_headers, ofExcept, pyBind,
                  pyTry, apiCall, isRequestException, isValueError]

/-- get_chat_messages never sleeps. -/
theorem gcm_no_sleep (env : Env) (tok cid : Json) (n : Nat) :
    Effect.sleep n ∉ (get_chat_messages env tok cid).1 := by
  rcases gcm_cases env tok cid with h | h | ⟨p, h⟩ | h | h | h <;>
    simp [h, handle_api_error, log_and_warn]

/-- The only exception that can escape get_chat_messages is
AttributeError, raised while parsing an unexpectedly shaped body. -/
theorem gcm_error_attr (env : Env) (tok cid : Json) (e : PyExc)
    (h : (get_chat_messages env tok cid).2 = .error e) : e = .attributeError := by
  rcases gcm_cases env tok cid with hc | hc | ⟨p, hc⟩ | hc | hc | hc <;>
    rw [hc] at h <;> simp at h
  exact h.symm

/-- Every HTTP request recorded by get_chat_messages targets the
list-messages endpoint. -/
theorem gcm_calls_messages (env : Env) (tok cid : Json) (m ep : String)
    (h : Effect.httpCall m ep ∈ (get_chat_messages env tok cid).1) : ep = epGetMessages := by
  rcases gcm_cases env tok cid with hc | hc | ⟨p, hc⟩ | hc | hc | hc <;>
    rw [hc] at h <;> simp [handle_api_error, log_and_warn] at h <;> tauto

/-- With a truthy chat id and token, get_chat_messages puts the
list-messages request on the wire. -/
theorem gcm_makes_call (env : Env) (tok cid : Json) (hcid : pyTruthy cid = true)
    (htok : pyTruthy tok = true) :
    Effect.httpCall "POST" epGetMessages ∈ (get_chat_messages env tok cid).1 := by
  cases hresp : env.messagesResp with
  | ok body =>
    cases hp : parseMessagesBody body with
    | ok p =>
      simp [get_chat_messages, hcid, htok, hresp, hp, get_headers, ofExcept, pyBind,
            pyTry, apiCall, handle_api_error, log_and_warn]
    | error e =>
      cases e <;>
        simp [get_chat_messages, hcid, htok, hresp, hp, get_headers, ofExcept, pyBind,
              pyTry, apiCall, isRequestException, isValueError, isParseError,
              handle_api_error, log_and_warn]
  | okBad =>
    simp [get_chat_messages, hcid, htok, hresp, get_headers, ofExcept, pyBind,
          pyTry, apiCall, isRequestException, handle_api_error, log_and_warn]
  | errStatus c =>
    simp [get_chat_messages, hcid, htok, hresp, get_headers, ofExcept, pyBind,
          pyTry, apiCall, isRequestException, handle_api_error, log_and_warn]
  | errTransport =>
    simp [get_chat_messages, hcid, htok, hresp, get_headers, ofExcept, pyBind,
          pyTry, apiCall, isRequestException, handle_api_error, log_and_warn]

/-- delete_chat always returns normally: every exception it can raise is
caught and reported. -/
theorem delete_chat_ok (env : Env) (tok cid : Json) :
    (delete_chat env tok cid).2 = .ok () := by
  cases hcid : pyTruthy cid with
  | false => simp [delete_chat, hcid]
  | true =>
    cases htok : pyTruthy tok with
    | false =>
      simp [delete_chat, hcid, htok, get_headers, ofExcept, pyBind, pyTry,
            isRequestException, isValueError]
    | true =>
      cases hresp : env.deleteResp <;>
        simp [delete_chat, hcid, htok, hresp, get_headers, ofExcept, pyBind, pyTry,
              apiCallNoBody, isRequestException, isValueError]

/-- rename_chat always returns normally. -/
theorem rename_chat_ok (env : Env) (tok cid : Json) (nm : String) :
    (rename_chat env tok cid nm).2 = .ok () := by
  cases hcid : pyTruthy cid with
  | false => simp [rename_chat, hcid]
  | true =>
    cases hnm : pyStripEmpty nm with
    | true => simp [rename_chat, hcid, hnm]
    | false =>
      cases htok : pyTruthy tok with
      | false =>
        simp [rename_chat, hcid, hnm, htok, get_headers, ofExcept, pyBind, pyTry,
              isRequestException, isValueError]
      | true =>
        cases hresp : env.renameResp <;>
          simp [rename_chat, hcid, hnm, htok, hresp, get_headers, ofExcept, pyBind, pyTry,
                apiCallNoBody, isRequestException, isValueError]

/-- With a truthy chat id and token, delete_chat puts the DELETE request
on the wire. -/
theorem delete_makes_call (env : Env) (tok cid : Json) (hcid : pyTruthy cid = true)
    (htok : pyTruthy tok = true) :
    Effect.httpCall "DELETE" epDeleteChat ∈ (delete_chat env tok cid).1 := by
  cases hresp : env.deleteResp <;>
    simp [delete_chat, hcid, htok, hresp, get_headers, ofExcept, pyBind, pyTry,
          apiCallNoBody, isRequestException, handle_api_error, log_and_warn]

/-- A mapped Python loop whose body always succeeds collects the mapped
results. -/
theorem exceptMapList_map_ok {α β γ : Type} (h : α → β) (f : β → Except PyExc γ)
    (g : α → γ) (hf : ∀ a, f (h a) = .ok (g a)) (xs : List α) :
    exceptMapList f (xs.map h) = .ok (xs.map g) := by
  induction xs with
  | nil => rfl
  | cons x t ih => simp [exceptMapList, hf, ih]

/-- C7: logout is wired with no inputs, so its result cannot depend on
any prior state; it always returns the fixed tuple: login view visible,
main view hidden, token cleared to None, empty chat list, no selected
chat id, empty message history, and a selector reset to empty choices
with no value. -/
theorem claim_C7_logout_fixed_result :
    logout =
      (log_and_info "User logged out.",
       .ok { loginView := { visible := some true }
             mainView := { visible := some false }
             token := Json.null
             chatList := []
             selectedChatId := Json.null
             history := []
             selector := { choices := some [], value := some Json.null }
             usernameField := ""
             passwordField := "" }) := rfl

/-- C9: refreshing the chat list with an absent (falsy) auth token
returns empty selector choices and an empty chat list, and its effect
trace is empty: no HTTP request is attempted and no warning of any kind
is emitted. -/
theorem claim_C9_refresh_no_token_silent (env : Env) (tok : Json)
    (h : pyTruthy tok = false) :
    refresh_and_update_components env tok = ([], .ok ({ choices := some [] }, [])) := by
  simp [refresh_and_update_components, h]

theorem claim_C9_refresh_no_token_silent_witness :
    refresh_and_update_components sampleEnv Json.null =
      ([], .ok ({ choices := some [] }, [])) :=
  claim_C9_refresh_no_token_silent sampleEnv Json.null rfl

/-- C5: the validation boundaries reject without any HTTP request.
Renaming with a whitespace-only name, renaming or sending with a falsy
selected chat id, and logging in with an empty username or password all
return immediately with only a warning in the trace. -/
theorem claim_C5_validation_before_network (env : Env) (tok cid : Json)
    (nm txt u p : String) :
    (pyTruthy cid = true → pyStripEmpty nm = true →
      rename_chat env tok cid nm = (log_and_warn "New name cannot be empty.", .ok ()) ∧
      anyHttpCall (rename_chat env tok cid nm).1 = false) ∧
    (pyTruthy cid = false →
      rename_chat env tok cid nm =
        (log_and_warn "Please select a chat to rename.", .ok ()) ∧
      send_message_and_get_reply env tok cid txt =
        (log_and_warn "Cannot send message: no chat selected.", .ok none) ∧
      anyHttpCall (rename_chat env tok cid nm).1 = false ∧
      anyHttpCall (send_message_and_get_reply env tok cid txt).1 = false) ∧
    ((u = "" ∨ p = "") →
      login env u p = ([.warn "Username and Password are required."], .ok loginFailResult) ∧
      anyHttpCall (login env u p).1 = false) := by
  refine ⟨?_, ?_, ?_⟩
  · intro hcid hnm
    constructor <;> simp [rename_chat, hcid, hnm, anyHttpCall, log_and_warn]
  · intro hcid
    refine ⟨?_, ?_, ?_, ?_⟩ <;>
      simp [rename_chat, send_message_and_get_reply, hcid, anyHttpCall, log_and_warn]
  · intro hup
    have hu : u == "" || p == "" := by
      rcases hup with h | h <;> simp [h]
    constructor <;> simp [login, hu, anyHttpCall]

theorem claim_C5_validation_before_network_witness :
    (rename_chat sampleEnv (Json.str "tok") (Json.str "id1") "   " =
        (log_and_warn "New name cannot be empty.", .ok ())) ∧
    (send_message_and_get_reply sampleEnv (Json.str "tok") Json.null "hi" =
        (log_and_warn "Cannot send message: no chat selected.", .ok none)) ∧
    (login sampleEnv "" "pw" =
        ([.warn "Username and Password are required."], .ok loginFailResult)) :=
  ⟨((claim_C5_validation_before_network sampleEnv (Json.str "tok") (Json.str "id1")
        "   " "hi" "" "pw").1 rfl rfl).1,
   (((claim_C5_validation_before_network sampleEnv (Json.str "tok") Json.null
        "   " "hi" "" "pw").2.1 rfl).2).1,
   ((claim_C5_validation_before_network sampleEnv (Json.str "tok") Json.null
        "   " "hi" "" "pw").2.2 (Or.inl rfl)).1⟩

/-- C10: with a selected chat and an empty or whitespace-only text, the
send handler emits no send request (only the empty-message warning), but
does run the list-messages fetch for the selected chat, displays the
fetched history, and returns the typed text unchanged so the input field
keeps it. -/
theorem claim_C10_empty_text_no_send (env : Env) (tok cid : Json) (txt : String)
    (hcid : pyTruthy cid = true) (htok : pyTruthy tok = true)
    (htxt : pyStripEmpty txt = true) :
    handle_send_and_refresh env cid txt tok =
      (log_and_warn "Cannot send an empty message." ++ (get_chat_messages env tok cid).1,
       (get_chat_messages env tok cid).2.map (fun p => (p.1, txt))) ∧
    (∀ m, Effect.httpCall m epSendMessage ∉ (handle_send_and_refresh env cid txt tok).1) ∧
    Effect.httpCall "POST" epGetMessages ∈ (handle_send_and_refresh env cid txt tok).1 := by
  have hmain : handle_send_and_refresh env cid txt tok =
      (log_and_warn "Cannot send an empty message." ++ (get_chat_messages env tok cid).1,
       (get_chat_messages env tok cid).2.map (fun p => (p.1, txt))) := by
    rcases hg : get_chat_messages env tok cid with ⟨es, r⟩
    cases r <;>
      simp [handle_send_and_refresh, send_message_and_get_reply, hcid, htxt, pyBind, hg,
            Except.map, log_and_warn]
  refine ⟨hmain, ?_, ?_⟩
  · intro m hmem
    rw [hmain] at hmem
    simp [log_and_warn, List.mem_append] at hmem
    have := gcm_calls_messages env tok cid m epSendMessage hmem
    exact absurd this (by decide)
  · rw [hmain]
    simp [List.mem_append]
    right
    exact gcm_makes_call env tok cid hcid htok

theorem claim_C10_empty_text_no_send_witness :
    handle_send_and_refresh sampleEnv (Json.str "c") "  " (Json.str "tok") =
      (log_and_warn "Cannot send an empty message." ++ [.httpCall "POST" epGetMessages],
       .ok ([Msg.mk "user" (.str "hi"), Msg.mk "assistant" (.str "yo")], "  ")) := by
  have h := (claim_C10_empty_text_no_send sampleEnv (Json.str "tok") (Json.str "c") "  "
    rfl rfl rfl).1
  rw [h]; rfl

/-- C8: with a selected chat, the rename handler runs rename_chat and
then, whatever that call did (the environment, and with it the outcome of
the rename request, is arbitrary), refreshes the chat list and clears the
rename input to the empty string; its trace is the rename trace followed
by the refresh trace, with no branching in between. -/
theorem claim_C8_rename_refreshes_unconditionally (env : Env) (sid : Json) (nm : String)
    (tok : Json) (hsid : pyTruthy sid = true) :
    handle_rename_chat env sid nm tok =
      ((rename_chat env tok sid nm).1 ++ (refresh_and_update_components env tok).1,
       (refresh_and_update_components env tok).2.map
         (fun rc => (rc.1, Out.val rc.2, ""))) := by
  have hok := rename_chat_ok env tok sid nm
  rcases hr : rename_chat env tok sid nm with ⟨es1, r1⟩
  rw [hr] at hok
  simp only at hok
  subst hok
  rcases hf : refresh_and_update_components env tok with ⟨es2, r2⟩
  cases r2 <;> simp [handle_rename_chat, hsid, hr, hf, pyBind, Except.map]

theorem claim_C8_rename_refreshes_unconditionally_witness :
    handle_rename_chat { sampleEnv with renameResp := .errTransport }
        (Json.str "id1") "New" (Json.str "tok") =
      ([.httpCall "POST" epRenameChat] ++ handle_api_error "renaming chat" ++
         [.httpCall "POST" epGetChats],
       .ok ({ choices := some [(Json.str "A", Json.str "id1"),
                              (Json.str "Unnamed Chat", Json.str "id2")],
              value := some Json.null },
            .val [(Json.str "A", Json.str "id1"),
                  (Json.str "Unnamed Chat", Json.str "id2")], "")) := by
  have h := claim_C8_rename_refreshes_unconditionally
    { sampleEnv with renameResp := .errTransport } (Json.str "id1") "New" (Json.str "tok") rfl
  rw [h]; rfl

/-- C4: with a selected chat, the delete handler resolves the display
name through get_name_from_id with the raw id as fallback, attempts the
delete (the DELETE request is in the trace whatever the environment
answers), refreshes the chat list, and returns the refreshed choices and
list together with a cleared selection (None) and an empty history. -/
theorem claim_C4_delete_clears_selection (env : Env) (sid : Json) (clist : List Chat)
    (tok : Json) (hsid : pyTruthy sid = true) (htok : pyTruthy tok = true) :
    handle_delete_chat env sid clist tok =
      ((delete_chat env tok sid).1 ++
         (log_and_success
            ("Chat \x27" ++ pyStr (pyOr (get_name_from_id sid clist) sid) ++ "\x27 deleted.") ++
          (refresh_and_update_components env tok).1),
       (refresh_and_update_components env tok).2.map
         (fun rc => (rc.1, Out.val rc.2, Out.val Json.null, Out.val []))) ∧
    Effect.httpCall "DELETE" epDeleteChat ∈ (handle_delete_chat env sid clist tok).1 ∧
    (get_name_from_id sid clist = none →
      Effect.successMsg ("Chat \x27" ++ pyStr sid ++ "\x27 deleted.") ∈
        (handle_delete_chat env sid clist tok).1) := by
  have hmain : handle_delete_chat env sid clist tok =
      ((delete_chat env tok sid).1 ++
         (log_and_success
            ("Chat \x27" ++ pyStr (pyOr (get_name_from_id sid clist) sid) ++ "\x27 deleted.") ++
          (refresh_and_update_components env tok).1),
       (refresh_and_update_components env tok).2.map
         (fun rc => (rc.1, Out.val rc.2, Out.val Json.null, Out.val []))) := by
    have hok := delete_chat_ok env tok sid
    rcases hd : delete_chat env tok sid with ⟨es1, r1⟩
    rw [hd] at hok
    simp only at hok
    subst hok
    rcases hf : refresh_and_update_components env tok with ⟨es2, r2⟩
    cases r2 <;> simp [handle_delete_chat, hsid, hd, hf, pyBind, Except.map]
  refine ⟨hmain, ?_, ?_⟩
  · rw [hmain]
    exact List.mem_append_left _ (delete_makes_call env tok sid hsid htok)
  · intro hnone
    rw [hmain]
    apply List.mem_append_right
    apply List.mem_append_left
    simp [log_and_success, pyOr, hnone]

theorem claim_C4_delete_clears_selection_witness :
    (handle_delete_chat { sampleEnv with deleteResp := .errStatus 500 }
        (Json.str "id9") [] (Json.str "tok")).2 =
      .ok ({ choices := some [(Json.str "A", Json.str "id1"),
                             (Json.str "Unnamed Chat", Json.str "id2")],
             value := some Json.null },
           .val [(Json.str "A", Json.str "id1"),
                 (Json.str "Unnamed Chat", Json.str "id2")],
           .val Json.null, .val []) := by
  have h := (claim_C4_delete_clears_selection { sampleEnv with deleteResp := .errStatus 500 }
    (Json.str "id9") [] (Json.str "tok") rfl rfl).1
  rw [h]; rfl


/-- C1: the send-and-reconcile dual path.  With a selected chat, a
non-whitespace text, and a token present, (1) when the send request comes
back 2xx the handler sleeps the fixed one-second settle delay, then runs
the list-messages fetch, returns the fetched history as the new display
and the empty string for the input field; (2) when the send request fails
the handler does not sleep, re-fetches the current history for
redisplay, and returns the original text unchanged for the input
field. -/
theorem claim_C1_send_and_reconcile_dual_path (env : Env) (tok cid : Json) (txt : String)
    (hcid : pyTruthy cid = true) (htxt : pyStripEmpty txt = false)
    (htok : pyTruthy tok = true) :
    (resp2xx env.sendResp = true →
      handle_send_and_refresh env cid txt tok =
        (Effect.httpCall "POST" epSendMessage :: Effect.sleep 1 ::
            (get_chat_messages env tok cid).1,
         (get_chat_messages env tok cid).2.map (fun p => (p.1, "")))) ∧
    (resp2xx env.sendResp = false →
      handle_send_and_refresh env cid txt tok =
        (Effect.httpCall "POST" epSendMessage ::
            (handle_api_error "sending message" ++ (get_chat_messages env tok cid).1),
         (get_chat_messages env tok cid).2.map (fun p => (p.1, txt))) ∧
      ∀ n, Effect.sleep n ∉ (handle_send_and_refresh env cid txt tok).1) := by
  constructor
  · intro hs
    have he := gcm_error_attr env tok cid
    rcases hg : get_chat_messages env tok cid with ⟨es, r⟩
    rw [hg] at he
    cases hresp : env.sendResp with
    | errStatus c => rw [hresp] at hs; simp [resp2xx] at hs
    | errTransport => rw [hresp] at hs; simp [resp2xx] at hs
    | ok body =>
      cases r with
      | ok p =>
        simp [handle_send_and_refresh, send_message_and_get_reply, hcid, htxt, htok,
              get_headers, ofExcept, pyBind, pyTry, apiCallNoBody, hresp, hg, Except.map]
      | error e =>
        have he2 : e = .attributeError := he e rfl
        subst he2
        simp [handle_send_and_refresh, send_message_and_get_reply, hcid, htxt, htok,
              get_headers, ofExcept, pyBind, pyTry, apiCallNoBody, hresp, hg, Except.map,
              isRequestException, isValueError]
    | okBad =>
      cases r with
      | ok p =>
        simp [handle_send_and_refresh, send_message_and_get_reply, hcid, htxt, htok,
              get_headers, ofExcept, pyBind, pyTry, apiCallNoBody, hresp, hg, Except.map]
      | error e =>
        have he2 : e = .attributeError := he e rfl
        subst he2
        simp [handle_send_and_refresh, send_message_and_get_reply, hcid, htxt, htok,
              get_headers, ofExcept, pyBind, pyTry, apiCallNoBody, hresp, hg, Except.map,
              isRequestException, isValueError]
  · intro hs
    have heq : handle_send_and_refresh env cid txt tok =
        (Effect.httpCall "POST" epSendMessage ::
            (handle_api_error "sending message" ++ (get_chat_messages env tok cid).1),
         (get_chat_messages env tok cid).2.map (fun p => (p.1, txt))) := by
      rcases hg : get_chat_messages env tok cid with ⟨es, r⟩
      cases hresp : env.sendResp with
      | ok body => rw [hresp] at hs; simp [resp2xx] at hs
      | okBad => rw [hresp] at hs; simp [resp2xx] at hs
      | errStatus c =>
        cases r <;>
          simp [handle_send_and_refresh, send_message_and_get_reply, hcid, htxt, htok,
                get_headers, ofExcept, pyBind, pyTry, apiCallNoBody, hresp, hg, Except.map,
                isRequestException, handle_api_error, log_and_warn]
      | errTransport =>
        cases r <;>
          simp [handle_send_and_refresh, send_message_and_get_reply, hcid, htxt, htok,
                get_headers, ofExcept, pyBind, pyTry, apiCallNoBody, hresp, hg, Except.map,
                isRequestException, handle_api_error, log_and_warn]
    refine ⟨heq, ?_⟩
    intro n
    rw [heq]
    simp [handle_api_error, log_and_warn]
    exact gcm_no_sleep env tok cid n

theorem claim_C1_send_and_reconcile_dual_path_witness :
    (handle_send_and_refresh sampleEnv (Json.str "c") "hello" (Json.str "tok") =
      ([.httpCall "POST" epSendMessage, .sleep 1, .httpCall "POST" epGetMessages],
       .ok ([Msg.mk "user" (.str "hi"), Msg.mk "assistant" (.str "yo")], ""))) ∧
    (handle_send_and_refresh { sampleEnv with sendResp := .errStatus 500 }
        (Json.str "c") "hello" (Json.str "tok") =
      (.httpCall "POST" epSendMessage ::
         (handle_api_error "sending message" ++ [.httpCall "POST" epGetMessages]),
       .ok ([Msg.mk "user" (.str "hi"), Msg.mk "assistant" (.str "yo")], "hello"))) := by
  constructor
  · have h := (claim_C1_send_and_reconcile_dual_path sampleEnv (Json.str "tok")
      (Json.str "c") "hello" rfl rfl rfl).1 rfl
    rw [h]; rfl
  · have h := ((claim_C1_send_and_reconcile_dual_path
      { sampleEnv with sendResp := .errStatus 500 } (Json.str "tok")
      (Json.str "c") "hello" rfl rfl rfl).2 rfl).1
    rw [h]; rfl


/-- C2 counterexample: the claim says no input makes an unhandled
exception escape list-chats or list-messages.  But a 2xx list-chats
response whose point lacks the metadata key escapes with KeyError, and a
2xx list-messages response whose body is a number escapes with
AttributeError. -/
theorem claim_C2_counterexample :
    (get_chats { sampleEnv with
        chatsResp := .ok (.obj [("points", .arr [.obj [("id", Json.str "x")]])]) }
      (Json.str "tok")).2 = .error .keyError ∧
    (get_chat_messages { sampleEnv with messagesResp := .ok (.num 0) }
      (Json.str "tok") (Json.str "c")).2 = .error .attributeError :=
  ⟨rfl, rfl⟩

/-- C2 amended: each operation catches transport failures, HTTP error
statuses, non-JSON bodies and the missing-token ValueError internally and
returns its documented fallback (empty list for list-chats; empty history
with the error sentinel label for list-messages; empty history with the
selection sentinel when no chat is selected).  Only an unexpectedly
shaped 2xx JSON body can escape. -/
theorem claim_C2_api_failures_handled (env : Env) (tok cid : Json) :
    (respFailure env.chatsResp = true → (get_chats env tok).2 = .ok []) ∧
    (respFailure env.messagesResp = true → pyTruthy cid = true →
      (get_chat_messages env tok cid).2 = .ok ([], "Error loading messages")) ∧
    (pyTruthy cid = false →
      get_chat_messages env tok cid = ([], .ok ([], "Select a chat to see messages"))) := by
  refine ⟨?_, ?_, ?_⟩
  · intro hfail
    cases htok : pyTruthy tok with
    | false =>
      simp [get_chats, htok, get_headers, ofExcept, pyBind, pyTry, isValueError]
    | true =>
      cases hresp : env.chatsResp with
      | ok body => rw [hresp] at hfail; simp [respFailure] at hfail
      | okBad =>
        simp [get_chats, htok, hresp, get_headers, ofExcept, pyBind, pyTry, apiCall,
              isRequestException, isValueError]
      | errStatus c =>
        simp [get_chats, htok, hresp, get_headers, ofExcept, pyBind, pyTry, apiCall,
              isRequestException, isValueError]
      | errTransport =>
        simp [get_chats, htok, hresp, get_headers, ofExcept, pyBind, pyTry, apiCall,
              isRequestException, isValueError]
  · intro hfail hcid
    cases htok : pyTruthy tok with
    | false =>
      simp [get_chat_messages, hcid, htok, get_headers, ofExcept, pyBind, pyTry,
            isValueError]
    | true =>
      cases hresp : env.messagesResp with
      | ok body => rw [hresp] at hfail; simp [respFailure] at hfail
      | okBad =>
        simp [get_chat_messages, hcid, htok, hresp, get_headers, ofExcept, pyBind, pyTry,
              apiCall, isRequestException, isValueError]
      | errStatus c =>
        simp [get_chat_messages, hcid, htok, hresp, get_headers, ofExcept, pyBind, pyTry,
              apiCall, isRequestException, isValueError]
      | errTransport =>
        simp [get_chat_messages, hcid, htok, hresp, get_headers, ofExcept, pyBind, pyTry,
              apiCall, isRequestException, isValueError]
  · intro hcid
    simp [get_chat_messages, hcid]

theorem claim_C2_api_failures_handled_witness :
    (get_chats { sampleEnv with chatsResp := .errTransport } (Json.str "tok")).2 = .ok [] ∧
    (get_chat_messages { sampleEnv with messagesResp := .errStatus 500 } (Json.str "tok")
        (Json.str "c")).2 = .ok ([], "Error loading messages") :=
  ⟨(claim_C2_api_failures_handled { sampleEnv with chatsResp := .errTransport }
      (Json.str "tok") (Json.str "c")).1 rfl,
   (claim_C2_api_failures_handled { sampleEnv with messagesResp := .errStatus 500 }
      (Json.str "tok") (Json.str "c")).2.1 rfl rfl⟩

/-- C3 counterexample: the claim says a user turn is appended whenever
the text field is present.  In an entry whose metadata has text present
but equal to the empty string next to a non-empty bot, the code appends
only the assistant turn: presence is not what is checked, truthiness
is. -/
theorem claim_C3_counterexample :
    jsonLookup [("text", Json.str ""), ("bot", Json.str "hi")] "text" = some (Json.str "") ∧
    (get_chat_messages { sampleEnv with messagesResp := .ok (.obj [("Name", .str "X"),
        ("Messages", .obj [("points", .arr [.obj [("metadata",
          .obj [("text", Json.str ""), ("bot", Json.str "hi")])]])])]) }
      (Json.str "tok") (Json.str "c")).2 =
      .ok ([Msg.mk "assistant" (.str "hi")], "History for: X") :=
  ⟨rfl, rfl⟩

/-- The per-entry helper for the amended C3: parseTurns on a point built
from a text value and a bot value yields exactly the turns the amended
specification predicts. -/
theorem parseTurns_mkMsgPoint (tb : Json × Json) :
    parseTurns (mkMsgPoint tb) = .ok (specEntryTurns tb) := by
  rcases tb with ⟨t, b⟩
  cases ht : pyTruthy t <;> cases hb : pyTruthy b <;>
    simp [parseTurns, mkMsgPoint, specEntryTurns, pyGetD, pyGetItem, jsonLookup, ht, hb]

/-- C3 amended: for a well-formed list-messages response the history is
built per entry, a user turn when the text value is truthy (present and
non-empty) and an assistant turn when the bot value is truthy, the two
checks independent; an entry with both truthy values contributes user
then assistant, in that order. -/
theorem claim_C3_turns_per_entry (env : Env) (tok cid : Json) (name : String)
    (entries : List (Json × Json)) (htok : pyTruthy tok = true) (hcid : pyTruthy cid = true)
    (hresp : env.messagesResp = .ok (.obj [("Name", .str name),
      ("Messages", .obj [("points", .arr (entries.map mkMsgPoint))])])) :
    (get_chat_messages env tok cid).2 =
      .ok ((entries.map specEntryTurns).flatten, "History for: " ++ name) := by
  have hbody : parseMessagesBody (.obj [("Name", .str name),
      ("Messages", .obj [("points", .arr (entries.map mkMsgPoint))])]) =
      .ok ((entries.map specEntryTurns).flatten, "History for: " ++ name) := by
    simp [parseMessagesBody, pyGetD, jsonLookup, pyIter, pyStr,
          exceptMapList_map_ok mkMsgPoint parseTurns specEntryTurns parseTurns_mkMsgPoint]
  simp [get_chat_messages, hcid, htok, hresp, get_headers, ofExcept, pyBind, pyTry,
        apiCall, hbody]

theorem claim_C3_turns_per_entry_witness :
    (get_chat_messages { sampleEnv with messagesResp := .ok (.obj [("Name", .str "N"),
        ("Messages", .obj [("points", .arr ([((Json.str "a" : Json), (Json.str "b" : Json)),
          ((Json.str "" : Json), (Json.str "c" : Json))].map mkMsgPoint))])]) }
      (Json.str "tok") (Json.str "cid")).2 =
      .ok ([Msg.mk "user" (.str "a"), Msg.mk "assistant" (.str "b"),
            Msg.mk "assistant" (.str "c")], "History for: N") := by
  have h := claim_C3_turns_per_entry { sampleEnv with messagesResp := .ok (.obj
      [("Name", .str "N"), ("Messages", .obj [("points",
        .arr ([((Json.str "a" : Json), (Json.str "b" : Json)),
          ((Json.str "" : Json), (Json.str "c" : Json))].map mkMsgPoint))])]) }
    (Json.str "tok") (Json.str "cid") "N"
    [((Json.str "a" : Json), (Json.str "b" : Json)),
     ((Json.str "" : Json), (Json.str "c" : Json))] rfl rfl rfl
  rw [h]; rfl

/-- C6 counterexample: the claim says every entry of a successful
list-chats response has a non-empty chat id.  A 2xx response whose point
carries an empty id string yields an entry whose id is the empty (falsy)
string: the code copies ids verbatim and enforces nothing. -/
theorem claim_C6_counterexample :
    (get_chats { sampleEnv with chatsResp := .ok (.obj [("points",
        .arr [.obj [("metadata", .obj []), ("id", Json.str "")]])]) } (Json.str "tok")).2 =
      .ok [(Json.str "Unnamed Chat", Json.str "")] ∧
    pyTruthy (Json.str "") = false :=
  ⟨rfl, rfl⟩

/-- The per-point helper for the amended C6: parseChatPoint on a point
built from metadata fields and an id yields the name (defaulted to the
placeholder when absent) and the id verbatim. -/
theorem parseChatPoint_mk (p : List (String × Json) × Json) :
    parseChatPoint (mkChatPoint p) =
      .ok ((jsonLookup p.1 "name").getD (.str "Unnamed Chat"), p.2) := by
  rcases p with ⟨fields, id⟩
  simp [parseChatPoint, mkChatPoint, pyGetItem, pyGetD, jsonLookup]

/-- C6 amended: each entry of a successful list-chats response carries
the display name from the metadata, defaulting to the fixed placeholder
when the name field is omitted, and the chat id copied verbatim from the
point; consequently every entry has a non-empty id whenever the server
supplies non-empty ids (the code itself does not enforce this). -/
theorem claim_C6_chat_list_entries (env : Env) (tok : Json)
    (pts : List (List (String × Json) × Json)) (htok : pyTruthy tok = true)
    (hresp : env.chatsResp = .ok (.obj [("points", .arr (pts.map mkChatPoint))])) :
    (get_chats env tok).2 =
      .ok (pts.map (fun p => ((jsonLookup p.1 "name").getD (Json.str "Unnamed Chat"), p.2))) ∧
    ((∀ p ∈ pts, pyTruthy p.2 = true) →
      ∀ r, (get_chats env tok).2 = .ok r → ∀ c ∈ r, pyTruthy c.2 = true) := by
  have hbody : parseChatsBody (.obj [("points", .arr (pts.map mkChatPoint))]) =
      .ok (pts.map fun p => ((jsonLookup p.1 "name").getD (Json.str "Unnamed Chat"), p.2)) := by
    cases pts with
    | nil => simp [parseChatsBody, pyContains, pyGetItem, jsonLookup, pyTruthy]
    | cons hd tl =>
      have hmap := exceptMapList_map_ok mkChatPoint parseChatPoint
        (fun p => ((jsonLookup p.1 "name").getD (Json.str "Unnamed Chat"), p.2))
        parseChatPoint_mk (hd :: tl)
      simp only [List.map_cons] at hmap
      simp [parseChatsBody, pyContains, pyGetItem, jsonLookup, pyTruthy, pyIter, hmap]
  have hmain : (get_chats env tok).2 =
      .ok (pts.map (fun p =>
        ((jsonLookup p.1 "name").getD (Json.str "Unnamed Chat"), p.2))) := by
    simp [get_chats, htok, hresp, get_headers, ofExcept, pyBind, pyTry, apiCall, hbody]
  refine ⟨hmain, ?_⟩
  intro hne r hr c hc
  rw [hmain] at hr
  simp only [Except.ok.injEq] at hr
  subst hr
  simp only [List.mem_map] at hc
  obtain ⟨p, hp, rfl⟩ := hc
  exact hne p hp

theorem claim_C6_chat_list_entries_witness :
    (get_chats sampleEnv (Json.str "tok")).2 =
      .ok [(Json.str "A", Json.str "id1"), (Json.str "Unnamed Chat", Json.str "id2")] := by
  have h := (claim_C6_chat_list_entries sampleEnv (Json.str "tok")
    [([("name", Json.str "A")], Json.str "id1"), ([], Json.str "id2")] rfl rfl).1
  rw [h]; rfl

end App
